import Mathlib

/-!
Verification development for the time-synchronization core of an NTP client
daemon: a shallow embedding of ntp-proto/src/peer.rs and
ntp-proto/src/algorithm/kalman/mod.rs, together with theorems settling the
frozen claims about them.

Conventions of the embedding:
- NtpDuration and NtpTimestamp are 64-bit fixed-point values with 32
  fractional bits; we model both as Int tick counts (1 second = 2^32 ticks).
  Wrap-around of the 64-bit representation is not modelled; every concrete
  input used below stays far inside the representable range.
- Rust i64 division truncates toward zero; it is modelled by Int.tdiv.
- f64 quantities are modelled as rational numbers; the f64 square root,
  which no claim ever evaluates, is abstracted as a parameter.
- i8 poll-interval fields are modelled as Int values carrying i8 contents;
  where the source performs unchecked i8 addition (the rate-kiss branch of
  handle_incoming), the embedding applies an explicit two's-complement wrap
  into [-128, 127], the Rust release-mode overflow semantics.
- Code of the repository that is not among the given sources (filter.rs,
  kalman/peer.rs, kalman/select.rs, the NtpDuration/NtpTimestamp arithmetic,
  the packet accessors and the configuration types) is modelled from the
  specification; each such definition carries a doc comment starting with
  "Modelled from the spec:".
-/

namespace NtpProto

/-- Modelled from the spec: NtpDuration is a signed 64-bit fixed-point number
of seconds with 32 fractional bits, supporting add, sub, compare and
conversion to and from floating seconds. We model it as an Int counting
2^-32 second ticks. -/
abbrev NtpDuration := Int

/-- Modelled from the spec: NtpTimestamp is a 64-bit fixed-point NTP time
point; subtracting two timestamps yields an NtpDuration. Modelled as Int
ticks on the same scale as NtpDuration. -/
abbrev NtpTimestamp := Int

/-- Modelled from the spec: NtpDuration::ONE, one second. -/
def NtpDuration.ONE : NtpDuration := 2 ^ 32

/-- Modelled from the spec: NtpDuration::MIN_DISPERSION. The spec names the
constant but does not give its value; we use the NTP standard minimum
dispersion of 0.005 s truncated to ticks. No claim depends on the exact
value, only on its being a fixed nonnegative constant. -/
def NtpDuration.MIN_DISPERSION : NtpDuration := 21474836

/-- Truncation of a rational toward zero, the behavior of a Rust float to
integer cast. -/
def rat_trunc (q : ℚ) : Int := if 0 ≤ q then q.floor else -((-q).floor)

/-- Modelled from the spec: NtpDuration::to_seconds, the value in (floating)
seconds, modelled exactly as a rational. -/
def NtpDuration.to_seconds (d : NtpDuration) : ℚ := (d : ℚ) / (2 ^ 32 : ℚ)

/-- Modelled from the spec: NtpDuration::from_seconds; the scaled value is
cast to i64, truncating toward zero. -/
def NtpDuration.from_seconds (x : ℚ) : NtpDuration := rat_trunc (x * (2 ^ 32 : ℚ))

/-- Maximum stratum from peer.rs: const MAX_STRATUM: u8 = 16. -/
def MAX_STRATUM : Nat := 16

/-- Maximum root distance from peer.rs: MAX_DISTANCE = NtpDuration::ONE. -/
def MAX_DISTANCE : NtpDuration := NtpDuration.ONE

/-- Frequency tolerance scaling from peer.rs: (duration * 15) / 1_000_000,
with truncating i64 division. -/
def multiply_by_phi (duration : NtpDuration) : NtpDuration :=
  Int.tdiv (duration * 15) 1000000

/-- Leap indicator of an NTP packet. -/
inductive NtpLeapIndicator where
  | NoWarning
  | Leap61
  | Leap59
  | Unknown
deriving DecidableEq

/-- Modelled from the spec: a leap indicator marks the server synchronized
unless it is Unknown. -/
def NtpLeapIndicator.is_synchronized : NtpLeapIndicator → Bool
  | .Unknown => false
  | _ => true

/-- Association mode of an NTP packet; only client and server are relevant,
all other on-wire modes are collapsed into OtherMode. -/
inductive NtpAssociationMode where
  | Client
  | Server
  | OtherMode
deriving DecidableEq

/-- Modelled from the spec: the kiss-of-death classification of a packet
(the spec lists a kiss-of-death classifier among the consumed packet
fields; rate kisses ratchet the poll floor, other kisses are dropped). -/
inductive KissCode where
  | NotKiss
  | Rate
  | OtherKiss
deriving DecidableEq

/-- Per-peer statistics from peer.rs (offset, delay, dispersion are
NtpDuration; jitter is an f64 number of seconds). -/
structure PeerStatistics where
  offset : NtpDuration := 0
  delay : NtpDuration := 0
  dispersion : NtpDuration := 0
  jitter : ℚ := 0
deriving DecidableEq

/-- Default (all zero) PeerStatistics. -/
def PeerStatistics.default : PeerStatistics := {}

/-- Modelled from the spec: the NTP packet header fields the core consumes
(mode, origin timestamp, stratum, leap, reference id, root delay, root
dispersion, poll, kiss-of-death classifier) plus the transmit timestamp
set on outgoing polls. -/
structure NtpHeader where
  mode : NtpAssociationMode
  origin_timestamp : NtpTimestamp
  transmit_timestamp : NtpTimestamp
  stratum : Nat
  leap : NtpLeapIndicator
  reference_id : Nat
  root_delay : NtpDuration
  root_dispersion : NtpDuration
  poll : Int
  kiss : KissCode
deriving DecidableEq

/-- Modelled from the spec: NtpHeader::new and Default::default, a zeroed
client-mode header that is not a kiss and carries no leap warning. -/
def NtpHeader.new : NtpHeader :=
  { mode := .Client
    origin_timestamp := 0
    transmit_timestamp := 0
    stratum := 0
    leap := .NoWarning
    reference_id := 0
    root_delay := 0
    root_dispersion := 0
    poll := 0
    kiss := .NotKiss }

/-- Modelled from the spec: whether the packet is any kiss-of-death. -/
def NtpHeader.is_kiss (m : NtpHeader) : Bool :=
  match m.kiss with
  | .NotKiss => false
  | _ => true

/-- Modelled from the spec: whether the packet is a kiss-of-death with rate
code. -/
def NtpHeader.is_kiss_rate (m : NtpHeader) : Bool :=
  match m.kiss with
  | .Rate => true
  | _ => false

/-- Reachability shift register from peer.rs: an 8-bit register, shifted
left on each poll, with the rightmost bit set on each accepted packet.
The u8 value is modelled as a Nat kept below 256 by an explicit mod. -/
structure Reach where
  v : Nat
deriving DecidableEq

/-- Default reach register (zero, unreachable). -/
def Reach.default : Reach := ⟨0⟩

/-- Reach::is_reachable: the register holds any nonzero bit. -/
def Reach.is_reachable (r : Reach) : Bool := r.v != 0

/-- Reach::received_packet: set the rightmost bit. -/
def Reach.received_packet (r : Reach) : Reach := ⟨r.v ||| 1⟩

/-- Reach::poll: shift the register left by one bit (u8, so reduced mod
256). -/
def Reach.poll (r : Reach) : Reach := ⟨(r.v <<< 1) % 256⟩

/-- Reasons for ignoring an incoming packet, from peer.rs. -/
inductive IgnoreReason where
  | InvalidMode
  | InvalidPacketTime
  | Kiss
  | TooOld
deriving DecidableEq

/-- Acceptance errors for selection eligibility, from peer.rs. -/
inductive AcceptSynchronizationError where
  | ServerUnreachable
  | Loop
  | Distance
  | Stratum
deriving DecidableEq

/-- Two's-complement wrap of an integer into the i8 range [-128, 127]: the
value of an unchecked Rust i8 addition under release-mode overflow
semantics, written with an explicit mod 2^8. On in-range values it is the
identity. -/
def i8_wrap (x : Int) : Int := (x + 128) % 256 - 128

/-- Peer state from peer.rs. The LastMeasurements clock filter lives in
filter.rs, which is not among the given sources, so its type is a
parameter LM; peer.rs itself never inspects it. ReferenceId values are
modelled as Nat. The three poll-interval fields are i8 in the source;
they are modelled as Int holding i8 values, and the one unchecked i8
addition performed on them (the rate-kiss branch of handle_incoming)
wraps explicitly via i8_wrap. -/
structure Peer (LM : Type) where
  last_poll_interval : Int
  next_poll_interval : Int
  remote_min_poll_interval : Int
  next_expected_origin : Option NtpTimestamp
  statistics : PeerStatistics
  last_measurements : LM
  last_packet : NtpHeader
  time : NtpTimestamp
  peer_id : Nat
  our_id : Nat
  reach : Reach
deriving DecidableEq

/-- Peer::new from peer.rs; lm0 stands for Default::default() of the
LastMeasurements filter. -/
def Peer.new {LM : Type} (lm0 : LM) (our_id peer_id : Nat)
    (current_system_time : NtpTimestamp) : Peer LM :=
  { last_poll_interval := 2
    next_poll_interval := 2
    remote_min_poll_interval := 2
    next_expected_origin := none
    statistics := PeerStatistics.default
    last_measurements := lm0
    last_packet := NtpHeader.new
    time := current_system_time
    our_id := our_id
    peer_id := peer_id
    reach := Reach.default }

/-- Snapshot of a peer handed to the system, from peer.rs. -/
structure PeerSnapshot where
  time : NtpTimestamp
  root_distance_without_time : NtpDuration
  stratum : Nat
  statistics : PeerStatistics
deriving DecidableEq

/-- Peer::root_distance_without_time from peer.rs: half the clamped total
delay plus total dispersion plus peer jitter. -/
def Peer.root_distance_without_time {LM : Type} (p : Peer LM) : NtpDuration :=
  Int.tdiv (max NtpDuration.MIN_DISPERSION (p.last_packet.root_delay + p.statistics.delay)) 2
    + p.last_packet.root_dispersion
    + p.statistics.dispersion
    + NtpDuration.from_seconds p.statistics.jitter

/-- Peer::root_distance from peer.rs. -/
def Peer.root_distance {LM : Type} (p : Peer LM)
    (local_clock_time : NtpTimestamp) : NtpDuration :=
  p.root_distance_without_time + multiply_by_phi (local_clock_time - p.time)

/-- Peer::accept_synchronization from peer.rs, with the checks in source
order: stratum, distance, loop, reachability. -/
def Peer.accept_synchronization {LM : Type} (p : Peer LM)
    (local_clock_time : NtpTimestamp) (system_poll : NtpDuration) :
    Except AcceptSynchronizationError Unit :=
  if p.last_packet.leap.is_synchronized = false ∨ MAX_STRATUM ≤ p.last_packet.stratum then
    .error .Stratum
  else if p.root_distance local_clock_time > MAX_DISTANCE + multiply_by_phi system_poll then
    .error .Distance
  else if p.last_packet.stratum ≠ 1 ∧ p.last_packet.reference_id = p.our_id then
    .error .Loop
  else if p.reach.is_reachable = false then
    .error .ServerUnreachable
  else
    .ok ()

/-- Peer::generate_poll_message from peer.rs: shift the reach register,
record the transmit timestamp as the next expected origin, and build the
outgoing client packet. -/
def Peer.generate_poll_message {LM : Type} (p : Peer LM)
    (current_system_time : NtpTimestamp) : Peer LM × NtpHeader :=
  let p1 := { p with
    reach := p.reach.poll
    next_expected_origin := some current_system_time }
  (p1, { NtpHeader.new with
    poll := p1.last_poll_interval
    transmit_timestamp := current_system_time
    mode := .Client })

/-- Modelled from the spec: the clock-filter step used by handle_incoming.
It abstracts LastMeasurements::step applied to
FilterTuple::from_packet_default(message, 0, recv_time, recv_time) with the
fixed system parameters (NoWarning, 0.0) that handle_incoming passes;
filter.rs, which defines both, is not among the given sources. The
function consumes the filter state, the packet, the receive time and the
peer's current filter time, and returns the optional accepted statistics
together with the new filter state. -/
def StepFn (LM : Type) : Type :=
  LM → NtpHeader → NtpTimestamp → NtpTimestamp →
    Option (PeerStatistics × NtpTimestamp) × LM

/-- Peer::message_for_system from peer.rs: run the clock filter step; on
None the packet is too old, otherwise adopt the statistics and produce a
snapshot. -/
def Peer.message_for_system {LM : Type} (step : StepFn LM) (p : Peer LM)
    (message : NtpHeader) (recv_time : NtpTimestamp) :
    Peer LM × Except IgnoreReason PeerSnapshot :=
  let out := step p.last_measurements message recv_time p.time
  match out.1 with
  | none => ({ p with last_measurements := out.2 }, .error .TooOld)
  | some su =>
    let p1 := { p with
      last_measurements := out.2
      statistics := su.1
      time := su.2 }
    (p1, .ok { time := p1.time
               root_distance_without_time := p1.root_distance_without_time
               stratum := p1.last_packet.stratum
               statistics := p1.statistics })

/-- Peer::handle_incoming from peer.rs, in source order: mode check, origin
timestamp check, rate-kiss handling, other-kiss handling, then reach update
and the clock-filter step. The rate-kiss branch performs the source's
unchecked i8 addition remote_min_poll_interval + 1, modelled with the
explicit two's-complement wrap i8_wrap. -/
def Peer.handle_incoming {LM : Type} (step : StepFn LM) (p : Peer LM)
    (message : NtpHeader) (recv_time : NtpTimestamp) :
    Peer LM × Except IgnoreReason PeerSnapshot :=
  if message.mode ≠ NtpAssociationMode.Server then
    (p, .error .InvalidMode)
  else if some message.origin_timestamp ≠ p.next_expected_origin then
    (p, .error .InvalidPacketTime)
  else if message.is_kiss_rate then
    ({ p with remote_min_poll_interval := max (i8_wrap (p.remote_min_poll_interval + 1)) p.last_poll_interval },
     .error .Kiss)
  else if message.is_kiss then
    (p, .error .Kiss)
  else
    let p1 := { p with
      reach := p.reach.received_packet
      next_poll_interval := p.last_poll_interval }
    Peer.message_for_system step p1 message recv_time

end NtpProto

namespace NtpProto.Kalman

/-- Modelled from the spec: the fixed 2-vector [offset, frequency] of
matrix.rs (not among the given sources), with f64 entries modelled as
rationals. -/
structure Vector where
  e0 : ℚ
  e1 : ℚ
deriving DecidableEq

/-- Vector entry accessor (entry 0 is the offset component, entry 1 the
frequency component). -/
def Vector.entry (v : Vector) (i : Nat) : ℚ :=
  match i with
  | 0 => v.e0
  | _ => v.e1

instance : Add Vector := ⟨fun a b => ⟨a.e0 + b.e0, a.e1 + b.e1⟩⟩

instance : Sub Vector := ⟨fun a b => ⟨a.e0 - b.e0, a.e1 - b.e1⟩⟩

/-- Modelled from the spec: the fixed 2 by 2 matrix of matrix.rs (not among
the given sources), row major, with f64 entries modelled as rationals. -/
structure Matrix where
  v00 : ℚ
  v01 : ℚ
  v10 : ℚ
  v11 : ℚ
deriving DecidableEq

/-- Matrix::new(a, b, c, d) builds the matrix with rows (a, b) and (c, d). -/
def Matrix.new (a b c d : ℚ) : Matrix := ⟨a, b, c, d⟩

/-- Matrix entry accessor. -/
def Matrix.entry (m : Matrix) (i j : Nat) : ℚ :=
  match i, j with
  | 0, 0 => m.v00
  | 0, 1 => m.v01
  | 1, 0 => m.v10
  | _, _ => m.v11

instance : Add Matrix := ⟨fun a b => ⟨a.v00 + b.v00, a.v01 + b.v01, a.v10 + b.v10, a.v11 + b.v11⟩⟩

instance : Mul Matrix :=
  ⟨fun a b =>
    ⟨a.v00 * b.v00 + a.v01 * b.v10, a.v00 * b.v01 + a.v01 * b.v11,
     a.v10 * b.v00 + a.v11 * b.v10, a.v10 * b.v01 + a.v11 * b.v11⟩⟩

instance : HMul Matrix Vector Vector :=
  ⟨fun m v => ⟨m.v00 * v.e0 + m.v01 * v.e1, m.v10 * v.e0 + m.v11 * v.e1⟩⟩

/-- Matrix::determinant of the 2 by 2 matrix. -/
def Matrix.determinant (m : Matrix) : ℚ := m.v00 * m.v11 - m.v01 * m.v10

/-- Matrix::inverse via the 2 by 2 closed form (1/det times the adjugate).
Callers guarantee the matrix is invertible; on a singular matrix the
rational division by zero yields the zero matrix where Rust floats would
produce infinities, but no claim evaluates that case. -/
def Matrix.inverse (m : Matrix) : Matrix :=
  let d := m.determinant
  ⟨m.v11 / d, -m.v01 / d, -m.v10 / d, m.v00 / d⟩

/-- Square of an f64, from kalman/mod.rs. -/
def sqr (x : ℚ) : ℚ := x * x

/-- PeerSnapshot of kalman/mod.rs: the immutable projection of one peer
used by selection and combination. -/
structure PeerSnapshot (Index : Type) where
  index : Index
  state : Vector
  uncertainty : Matrix
  delay : ℚ
  peer_uncertainty : NtpDuration
  peer_delay : NtpDuration
  leap_indicator : NtpLeapIndicator
  last_update : NtpTimestamp
deriving DecidableEq

/-- Result of combining the selected snapshots, from kalman/mod.rs. -/
structure Combine (Index : Type) where
  estimate : Vector
  uncertainty : Matrix
  peers : List Index
  delay : NtpDuration
  leap_indicator : Option NtpLeapIndicator
deriving DecidableEq

/-- Number of snapshots in a list of leap indicators voting for a given
value (the counting loop of vote_leap). -/
def leap_votes (v : NtpLeapIndicator) : List NtpLeapIndicator → Nat
  | [] => 0
  | x :: xs => (if x = v then 1 else 0) + leap_votes v xs

/-- vote_leap from kalman/mod.rs. The source panics when an Unknown peer
reaches it; the panic is modelled as the outer none. Otherwise the result
is the first of NoWarning, Leap59, Leap61 whose votes are a strict
majority, or none. -/
def vote_leap {Index : Type} (selection : List (PeerSnapshot Index)) :
    Option (Option NtpLeapIndicator) :=
  let leaps := selection.map PeerSnapshot.leap_indicator
  if NtpLeapIndicator.Unknown ∈ leaps then
    none
  else
    some (if leap_votes .NoWarning leaps * 2 > selection.length then some .NoWarning
      else if leap_votes .Leap59 leaps * 2 > selection.length then some .Leap59
      else if leap_votes .Leap61 leaps * 2 > selection.length then some .Leap61
      else none)

/-- Minimum of a list, as Rust Iterator::min (none on an empty list). -/
def list_min : List NtpDuration → Option NtpDuration
  | [] => none
  | x :: xs =>
    some (match list_min xs with
      | none => x
      | some m => min x m)

/-- Insertion of a keyed entry into a list sorted ascending by the rational
key (the sort_by of kalman/mod.rs; rational comparison is total, so the
partial_cmp unwrap of the source cannot fail in the model). -/
def insert_by_key {Index : Type} (x : Index × ℚ) :
    List (Index × ℚ) → List (Index × ℚ)
  | [] => [x]
  | y :: ys => if x.2 ≤ y.2 then x :: y :: ys else y :: insert_by_key x ys

/-- Stable ascending sort by the rational key. -/
def sort_by_key {Index : Type} : List (Index × ℚ) → List (Index × ℚ)
  | [] => []
  | x :: xs => insert_by_key x (sort_by_key xs)

/-- One fold step of combine in kalman/mod.rs: merge one further snapshot
into the running estimate, uncertainty and used-peers list. -/
def combine_step {Index : Type}
    (acc : Vector × Matrix × List (Index × ℚ)) (snapshot : PeerSnapshot Index) :
    Vector × Matrix × List (Index × ℚ) :=
  let estimate := acc.1
  let uncertainty := acc.2.1
  let peer_uncertainty := snapshot.uncertainty
    + Matrix.new (sqr (NtpDuration.to_seconds snapshot.peer_uncertainty)) 0 0 0
  let mixer := (uncertainty + peer_uncertainty).inverse
  (estimate + uncertainty * mixer * (snapshot.state - estimate),
   uncertainty * mixer * peer_uncertainty,
   acc.2.2 ++ [(snapshot.index, peer_uncertainty.determinant)])

/-- combine from kalman/mod.rs. The outer none models the vote_leap panic
on an Unknown leap indicator; some none is the empty-selection result. -/
def combine {Index : Type} (selection : List (PeerSnapshot Index)) :
    Option (Option (Combine Index)) :=
  match selection with
  | [] => some none
  | first :: rest =>
    match vote_leap selection with
    | none => none
    | some li =>
      let uncertainty0 := first.uncertainty
        + Matrix.new (sqr (NtpDuration.to_seconds first.peer_uncertainty)) 0 0 0
      let folded := rest.foldl combine_step
        (first.state, uncertainty0, [(first.index, uncertainty0.determinant)])
      some (some
        { estimate := folded.1
          uncertainty := folded.2.1
          peers := (sort_by_key folded.2.2).map Prod.fst
          delay := (list_min (selection.map
              (fun v => NtpDuration.from_seconds v.delay + v.peer_delay))).getD
            (NtpDuration.from_seconds first.delay + first.peer_delay)
          leap_indicator := li })

/-- Modelled from the spec: the poll interval limits of the system
configuration. -/
structure PollIntervalLimits where
  lo : Int
  hi : Int
deriving DecidableEq

/-- Modelled from the spec: a panic step threshold; none imposes no limit.
A change is within the threshold when its magnitude does not exceed the
limit. -/
def threshold_is_within (th : Option NtpDuration) (d : NtpDuration) : Bool :=
  match th with
  | none => true
  | some v => |d| ≤ v

/-- Modelled from the spec: the system configuration keys the controller
reads (poll limits and the panic thresholds). -/
structure SystemConfig where
  poll_limits : PollIntervalLimits
  startup_panic_threshold : Option NtpDuration
  panic_threshold : Option NtpDuration
  accumulated_threshold : Option NtpDuration
deriving DecidableEq

/-- Modelled from the spec: the algorithm configuration keys the controller
reads (steering thresholds and slew parameters; f64 values as rationals). -/
structure AlgorithmConfig where
  steer_frequency_threshold : ℚ
  steer_frequency_leftover : ℚ
  steer_offset_threshold : ℚ
  steer_offset_leftover : ℚ
  jump_threshold : ℚ
  slew_max_frequency_offset : ℚ
  slew_min_duration : ℚ
deriving DecidableEq

/-- Observable time snapshot of the controller, from the spec data model:
root delay, root dispersion, poll interval, accumulated steps and leap
indicator. -/
structure TimeSnapshot where
  root_delay : NtpDuration
  root_dispersion : NtpDuration
  poll_interval : Int
  accumulated_steps : NtpDuration
  leap_indicator : NtpLeapIndicator
deriving DecidableEq

/-- Default TimeSnapshot (zeroed, leap unknown). -/
def TimeSnapshot.default : TimeSnapshot :=
  { root_delay := 0
    root_dispersion := 0
    poll_interval := 0
    accumulated_steps := 0
    leap_indicator := .Unknown }

/-- Measurement delivered to the controller. Modelled from the spec: the
controller itself reads only its localtime; the remaining content is
consumed by the abstracted per-peer filter. -/
structure Measurement where
  localtime : NtpTimestamp
  offset : ℚ
  delay : ℚ
deriving DecidableEq

/-- StateUpdate returned by the controller. -/
structure StateUpdate (PeerID : Type) where
  used_peers : Option (List PeerID)
  timesnapshot : Option TimeSnapshot
  next_update : Option NtpTimestamp
deriving DecidableEq

/-- StateUpdate::default: all fields empty. -/
def StateUpdate.default (PeerID : Type) : StateUpdate PeerID :=
  { used_peers := none, timesnapshot := none, next_update := none }

/-- Calls the controller makes on the abstract system clock, recorded as a
trace; read_now records a clock.now() read. -/
inductive ClockCall where
  | disable_ntp_algorithm
  | status_update (leap : NtpLeapIndicator)
  | set_frequency (f : ℚ)
  | step_clock (d : NtpDuration)
  | error_estimate_update (dispersion : NtpDuration) (delay : NtpDuration)
  | read_now
deriving DecidableEq

/-- Modelled from the spec: the operations on the per-peer Kalman filter
state and the selector that the controller calls but that live in files
not among the given sources (kalman/peer.rs and kalman/select.rs), plus
the f64 square root. They are abstracted as explicit parameters so that
every theorem below holds for all implementations of the missing code. -/
structure Ext (PS : Type) (PeerID : Type) where
  ps_new : PS
  update : SystemConfig → AlgorithmConfig → PS → Measurement → NtpHeader → Bool × PS
  get_filtertime : PS → Option NtpTimestamp
  progress_filtertime : PS → NtpTimestamp → PS
  snapshot_fn : PS → PeerID → Option (PeerSnapshot PeerID)
  get_desired_poll : PS → PollIntervalLimits → Int
  process_offset_steering : PS → ℚ → PS
  process_frequency_steering : PS → NtpTimestamp → ℚ → PS
  select_fn : SystemConfig → AlgorithmConfig → List (PeerSnapshot PeerID) → List (PeerSnapshot PeerID)
  sqrt_fn : ℚ → ℚ

/-- Lookup in the association-list model of the controller's peer map. -/
def assoc_find {PeerID : Type} [DecidableEq PeerID] {V : Type}
    (l : List (PeerID × V)) (id : PeerID) : Option V :=
  match l with
  | [] => none
  | (k, v) :: rest => if k = id then some v else assoc_find rest id

/-- HashMap::insert semantics on the association list: replace the entry
with the given key, or append it. -/
def assoc_insert {PeerID : Type} [DecidableEq PeerID] {V : Type}
    (l : List (PeerID × V)) (id : PeerID) (v : V) : List (PeerID × V) :=
  match l with
  | [] => [(id, v)]
  | (k, w) :: rest => if k = id then (id, v) :: rest else (k, w) :: assoc_insert rest id v

/-- HashMap::remove semantics on the association list: drop the entries
with the given key. -/
def assoc_remove {PeerID : Type} [DecidableEq PeerID] {V : Type}
    (l : List (PeerID × V)) (id : PeerID) : List (PeerID × V) :=
  match l with
  | [] => []
  | (k, w) :: rest => if k = id then assoc_remove rest id else (k, w) :: assoc_remove rest id

/-- KalmanClockController from kalman/mod.rs. The peer table is modelled as
an association list with HashMap semantics; the clock handle is replaced
by emitted call traces and explicit now-value inputs. -/
structure KalmanClockController (PS : Type) (PeerID : Type) where
  peers : List (PeerID × (PS × Bool))
  config : SystemConfig
  algo_config : AlgorithmConfig
  ignore_before : NtpTimestamp
  freq_offset : ℚ
  timedata : TimeSnapshot
  desired_freq : ℚ
  in_startup : Bool

/-- KalmanClockController::new from kalman/mod.rs: emit the clock setup
calls and build the state; now0 is the value read from clock.now() for
ignore_before. The source initializes in_startup to false. -/
def controller_new (PS PeerID : Type) (now0 : NtpTimestamp)
    (config : SystemConfig) (algo_config : AlgorithmConfig) :
    KalmanClockController PS PeerID × List ClockCall :=
  ({ peers := []
     config := config
     algo_config := algo_config
     ignore_before := now0
     freq_offset := 0
     timedata := TimeSnapshot.default
     desired_freq := 0
     in_startup := false },
   [.disable_ntp_algorithm, .status_update .Unknown, .set_frequency 0, .read_now])

/-- KalmanClockController::peer_add: insert a fresh unusable peer state. -/
def peer_add {PS PeerID : Type} [DecidableEq PeerID] (E : Ext PS PeerID)
    (c : KalmanClockController PS PeerID) (id : PeerID) :
    KalmanClockController PS PeerID :=
  { c with peers := assoc_insert c.peers id (E.ps_new, false) }

/-- KalmanClockController::peer_remove: drop the peer state. -/
def peer_remove {PS PeerID : Type} [DecidableEq PeerID]
    (c : KalmanClockController PS PeerID) (id : PeerID) :
    KalmanClockController PS PeerID :=
  { c with peers := assoc_remove c.peers id }

/-- KalmanClockController::peer_update: set the usable flag if present. -/
def peer_update {PS PeerID : Type} [DecidableEq PeerID]
    (c : KalmanClockController PS PeerID) (id : PeerID) (usable : Bool) :
    KalmanClockController PS PeerID :=
  match assoc_find c.peers id with
  | none => c
  | some (ps, _) => { c with peers := assoc_insert c.peers id (ps, usable) }

/-- KalmanClockController::update_peer from kalman/mod.rs: drop measurements
older than ignore_before, otherwise run the per-peer filter update and
report whether a usable peer accepted the sample. -/
def update_peer {PS PeerID : Type} [DecidableEq PeerID] (E : Ext PS PeerID)
    (c : KalmanClockController PS PeerID) (id : PeerID)
    (measurement : Measurement) (packet : NtpHeader) :
    KalmanClockController PS PeerID × Bool :=
  if measurement.localtime - c.ignore_before < 0 then
    (c, false)
  else
    match assoc_find c.peers id with
    | none => (c, false)
    | some (ps, usable) =>
      let out := E.update c.config c.algo_config ps measurement packet
      ({ c with peers := assoc_insert c.peers id (out.2, usable) }, out.1 && usable)

/-- KalmanClockController::update_desired_poll: the minimum of the peers'
desired poll intervals, or the configured maximum when there are none. -/
def update_desired_poll {PS PeerID : Type} (E : Ext PS PeerID)
    (c : KalmanClockController PS PeerID) : KalmanClockController PS PeerID :=
  { c with timedata := { c.timedata with poll_interval :=
      (list_min (c.peers.map (fun kv => E.get_desired_poll kv.2.1 c.config.poll_limits))).getD c.config.poll_limits.hi } }

/-- KalmanClockController::steer_frequency from kalman/mod.rs: compose the
frequency offset, push it to the clock, read back now (the head of the
supplied now-value list) and inform the peer filters. Returns the new
state, the read now value, the emitted clock calls, and the unconsumed
now values. -/
def steer_frequency {PS PeerID : Type} (E : Ext PS PeerID)
    (c : KalmanClockController PS PeerID) (change : ℚ) (nows : List NtpTimestamp) :
    KalmanClockController PS PeerID × NtpTimestamp × List ClockCall × List NtpTimestamp :=
  let f1 := (1 + c.freq_offset) * (1 + change) - 1
  let freq_update := nows.headD 0
  let peers1 := c.peers.map (fun kv => (kv.1, (E.process_frequency_steering kv.2.1 freq_update change, kv.2.2)))
  ({ c with freq_offset := f1, peers := peers1 },
   freq_update,
   [.set_frequency f1, .read_now],
   nows.tail)

/-- Sign as Rust f64::signum on non-NaN values (1 for nonnegative, -1 for
negative). -/
def rat_signum (q : ℚ) : ℚ := if q < 0 then -1 else 1

/-- KalmanClockController::check_offset_steer from kalman/mod.rs. The
process exit on a panic-threshold breach is modelled as the error case. -/
def check_offset_steer {PS PeerID : Type}
    (c : KalmanClockController PS PeerID) (change : ℚ) :
    Except Unit (KalmanClockController PS PeerID) :=
  let changeD := NtpDuration.from_seconds change
  if c.in_startup then
    if threshold_is_within c.config.startup_panic_threshold changeD = false then
      .error ()
    else
      .ok c
  else
    let c1 := { c with timedata := { c.timedata with accumulated_steps := c.timedata.accumulated_steps + changeD } }
    let accum_ok : Bool := match c1.config.accumulated_threshold with
      | some v => decide (|changeD| < v)
      | none => true
    if threshold_is_within c1.config.panic_threshold changeD = false ∨ accum_ok = false then
      .error ()
    else
      .ok c1

/-- KalmanClockController::steer_offset from kalman/mod.rs: check the panic
thresholds, then either jump the clock or start a slew. -/
def steer_offset {PS PeerID : Type} (E : Ext PS PeerID)
    (c : KalmanClockController PS PeerID) (change : ℚ) (nows : List NtpTimestamp) :
    Except Unit (KalmanClockController PS PeerID × Option NtpTimestamp × List ClockCall × List NtpTimestamp) :=
  match check_offset_steer c change with
  | .error () => .error ()
  | .ok c1 =>
    if |change| > c1.algo_config.jump_threshold then
      let peers1 := c1.peers.map (fun kv => (kv.1, (E.process_offset_steering kv.2.1 change, kv.2.2)))
      .ok ({ c1 with peers := peers1 },
           none,
           [.step_clock (NtpDuration.from_seconds change)],
           nows)
    else
      let freq := min c1.algo_config.slew_max_frequency_offset (|change| / c1.algo_config.slew_min_duration)
      let c2 := { c1 with desired_freq := -freq * rat_signum change }
      let dur := NtpDuration.from_seconds (|change| / freq)
      let out := steer_frequency E c2 (-c2.desired_freq) nows
      .ok (out.1, some (out.2.1 + dur), out.2.2.1, out.2.2.2)

/-- KalmanClockController::update_clock from kalman/mod.rs: guard against
future filter times, project all filters, select and combine, steer
frequency and offset as indicated, update the time data and report. The
vote_leap panic propagates as the error case, as does a panic-threshold
breach inside steer_offset. -/
def update_clock {PS PeerID : Type} (E : Ext PS PeerID)
    (c : KalmanClockController PS PeerID) (time : NtpTimestamp) (nows : List NtpTimestamp) :
    Except Unit (KalmanClockController PS PeerID × StateUpdate PeerID × List ClockCall) :=
  if (c.peers.filterMap (fun kv => E.get_filtertime kv.2.1)).any (fun peertime => time - peertime < 0) then
    .ok (c, { used_peers := none, timesnapshot := some c.timedata, next_update := none }, [])
  else
    let c1 := { c with peers := c.peers.map (fun kv => (kv.1, (E.progress_filtertime kv.2.1 time, kv.2.2))) }
    let selection := E.select_fn c1.config c1.algo_config
      (c1.peers.filterMap (fun kv => if kv.2.2 then E.snapshot_fn kv.2.1 kv.1 else none))
    match combine selection with
    | none => .error ()
    | some none =>
      .ok (c1, { used_peers := none, timesnapshot := some c1.timedata, next_update := none }, [])
    | some (some combined) =>
      let freq_delta := combined.estimate.entry 1 - c1.desired_freq
      let freq_uncertainty := E.sqrt_fn (combined.uncertainty.entry 1 1)
      let fout :=
        if |freq_delta| > freq_uncertainty * c1.algo_config.steer_frequency_threshold then
          let s := steer_frequency E c1 (freq_delta - freq_uncertainty * c1.algo_config.steer_frequency_leftover * rat_signum freq_delta) nows
          (s.1, s.2.2.1, s.2.2.2)
        else
          (c1, [], nows)
      let c2 := fout.1
      let offset_delta := combined.estimate.entry 0
      let offset_uncertainty := E.sqrt_fn (combined.uncertainty.entry 0 0)
      let oout :=
        if c2.desired_freq = 0 ∧ |offset_delta| > offset_uncertainty * c2.algo_config.steer_offset_threshold then
          steer_offset E c2 (offset_delta - offset_uncertainty * c2.algo_config.steer_offset_leftover * rat_signum offset_delta) fout.2.2
        else
          .ok (c2, none, [], fout.2.2)
      match oout with
      | .error () => .error ()
      | .ok (c3, next_update, calls2, _) =>
        let c4 := { c3 with
          timedata := { c3.timedata with
            root_delay := combined.delay
            root_dispersion := NtpDuration.from_seconds (E.sqrt_fn (combined.uncertainty.entry 0 0)) }
          in_startup := false }
        let leap_calls := match combined.leap_indicator with
          | some leap => [ClockCall.status_update leap]
          | none => []
        .ok (c4,
             { used_peers := some combined.peers, timesnapshot := some c4.timedata, next_update := next_update },
             fout.2.1 ++ calls2
               ++ [.error_estimate_update c4.timedata.root_dispersion c4.timedata.root_delay]
               ++ leap_calls)

/-- KalmanClockController::peer_measurement from kalman/mod.rs: update the
peer, recompute the desired poll, and update the clock when a usable peer
accepted the sample. -/
def peer_measurement {PS PeerID : Type} [DecidableEq PeerID] (E : Ext PS PeerID)
    (c : KalmanClockController PS PeerID) (id : PeerID)
    (measurement : Measurement) (packet : NtpHeader) (nows : List NtpTimestamp) :
    Except Unit (KalmanClockController PS PeerID × StateUpdate PeerID × List ClockCall) :=
  let out := update_peer E c id measurement packet
  let c2 := update_desired_poll E out.1
  if out.2 then
    update_clock E c2 measurement.localtime nows
  else
    .ok (c2, { used_peers := none, timesnapshot := some c2.timedata, next_update := none }, [])

/-- KalmanClockController::time_update from kalman/mod.rs: end the slew and
reset the desired frequency. -/
def time_update {PS PeerID : Type} (E : Ext PS PeerID)
    (c : KalmanClockController PS PeerID) (nows : List NtpTimestamp) :
    KalmanClockController PS PeerID × StateUpdate PeerID × List ClockCall :=
  let out := steer_frequency E c c.desired_freq nows
  ({ out.1 with desired_freq := 0 }, StateUpdate.default PeerID, out.2.2.1)

end NtpProto.Kalman

namespace NtpProto

/-- Concrete clock-filter step used in concrete evaluations: it accepts
every packet, reporting zeroed statistics at the receive time. -/
def step_stub : StepFn Unit :=
  fun lm _ recv_time _ => (some (PeerStatistics.default, recv_time), lm)

/-- Concrete peer used by the claim C5 evaluations: a fresh peer whose last
poll used interval 5 and whose outstanding poll was sent at tick 100. -/
def c5_peer : Peer Unit :=
  { Peer.new () 1 2 0 with last_poll_interval := 5, next_expected_origin := some 100 }

/-- Concrete rate-kiss server packet answering the poll sent at tick 100. -/
def c5_packet : NtpHeader :=
  { NtpHeader.new with mode := .Server, origin_timestamp := 100, kiss := .Rate }

/-- Concrete peer used by the claim C4 witness, sitting exactly on the
distance threshold at local time 0 with system poll 0: half the clamped
delay is 10737418 ticks and the root dispersion supplies the rest of one
second. Its packet is synchronized with stratum 0, its reference id 0
differs from our id 42, and it is reachable. -/
def c4_peer_eq : Peer Unit :=
  { Peer.new () 42 1 0 with
    reach := ⟨1⟩
    last_packet := { NtpHeader.new with root_dispersion := 4284229878 } }

/-- Concrete peer used by the claim C4 witness, one tick beyond the
distance threshold. -/
def c4_peer_gt : Peer Unit :=
  { Peer.new () 42 1 0 with
    reach := ⟨1⟩
    last_packet := { NtpHeader.new with root_dispersion := 4284229879 } }

/-- Concrete peer used by the claim C3 theorems (a fresh peer at time 0). -/
def c3_peer : Peer Unit := Peer.new () 0 0 0

end NtpProto

namespace NtpProto.Kalman

/-- Concrete system configuration used in concrete evaluations. -/
def test_config : SystemConfig :=
  { poll_limits := { lo := 4, hi := 10 }
    startup_panic_threshold := some (NtpDuration.ONE * 900)
    panic_threshold := some NtpDuration.ONE
    accumulated_threshold := none }

/-- Concrete algorithm configuration used in concrete evaluations. -/
def test_algo_config : AlgorithmConfig :=
  { steer_frequency_threshold := 2
    steer_frequency_leftover := 1
    steer_offset_threshold := 2
    steer_offset_leftover := 1
    jump_threshold := 16 / 125
    slew_max_frequency_offset := 1 / 5000
    slew_min_duration := 100 }

/-- Trivial implementations of the abstracted per-peer filter operations
over a unit filter state, used in concrete evaluations. -/
def ext_unit : Ext Unit Nat :=
  { ps_new := ()
    update := fun _ _ ps _ _ => (false, ps)
    get_filtertime := fun _ => none
    progress_filtertime := fun ps _ => ps
    snapshot_fn := fun _ _ => none
    get_desired_poll := fun _ limits => limits.lo
    process_offset_steering := fun ps _ => ps
    process_frequency_steering := fun ps _ _ => ps
    select_fn := fun _ _ l => l
    sqrt_fn := fun q => q }

/-- Trivial implementations of the abstracted per-peer filter operations
over a Bool filter state (so that a pre-existing peer state is
distinguishable from a fresh one), used in concrete evaluations. -/
def ext_bool : Ext Bool Nat :=
  { ps_new := false
    update := fun _ _ ps _ _ => (false, ps)
    get_filtertime := fun _ => none
    progress_filtertime := fun ps _ => ps
    snapshot_fn := fun _ _ => none
    get_desired_poll := fun _ limits => limits.lo
    process_offset_steering := fun ps _ => ps
    process_frequency_steering := fun ps _ _ => ps
    select_fn := fun _ _ l => l
    sqrt_fn := fun q => q }

/-- Concrete controller with no peers, used in concrete evaluations. -/
def test_controller : KalmanClockController Unit Nat :=
  { peers := []
    config := test_config
    algo_config := test_algo_config
    ignore_before := 0
    freq_offset := 0
    timedata := TimeSnapshot.default
    desired_freq := 0
    in_startup := false }

/-- Concrete controller already holding a peer with id 0 whose state is
true and whose usable flag is set, used in concrete evaluations. -/
def test_controller_bool : KalmanClockController Bool Nat :=
  { peers := [(0, (true, true))]
    config := test_config
    algo_config := test_algo_config
    ignore_before := 0
    freq_offset := 0
    timedata := TimeSnapshot.default
    desired_freq := 0
    in_startup := false }

/-- Concrete measurement older than the concrete controller's ignore_before
timestamp, used by the claim C9 witness. -/
def c9_measurement : Measurement := { localtime := -1, offset := 0, delay := 0 }

/-- Concrete kalman peer snapshot used by the claim C7 witness. -/
def c7_snapshot : PeerSnapshot Nat :=
  { index := 3
    state := ⟨1 / 2, 1 / 1000⟩
    uncertainty := Matrix.new 1 0 0 1
    delay := 1 / 100
    peer_uncertainty := 2 ^ 16
    peer_delay := 2 ^ 20
    leap_indicator := .NoWarning
    last_update := 50 }

/-- Concrete kalman peer snapshots used by the claim C6 witness: two
NoWarning votes and one Leap61 vote. -/
def c6_snapshots : List (PeerSnapshot Nat) :=
  [{ index := 0
     state := ⟨0, 0⟩
     uncertainty := Matrix.new 1 0 0 1
     delay := 0
     peer_uncertainty := 0
     peer_delay := 0
     leap_indicator := .NoWarning
     last_update := 0 },
   { index := 1
     state := ⟨0, 0⟩
     uncertainty := Matrix.new 1 0 0 1
     delay := 0
     peer_uncertainty := 0
     peer_delay := 0
     leap_indicator := .NoWarning
     last_update := 0 },
   { index := 2
     state := ⟨0, 0⟩
     uncertainty := Matrix.new 1 0 0 1
     delay := 0
     peer_uncertainty := 0
     peer_delay := 0
     leap_indicator := .Leap61
     last_update := 0 }]

end NtpProto.Kalman

namespace NtpProto

/-- Claim C1: the spec states that in_startup is true from construction
until the first successful consensus. The code contradicts this: the
constructor initializes in_startup to false, so the controller is never in
startup (the startup branch of check_offset_steer is unreachable). This
theorem evaluates the code at the failing input, a freshly constructed
controller observed before any update_clock call. -/
theorem c1_in_startup_false_at_construction :
    (Kalman.controller_new Unit Nat 0 Kalman.test_config Kalman.test_algo_config).1.in_startup = false := rfl

/-- Claim C2: the spec states that next_expected_origin returns to None
once a response with matching origin timestamp is accepted. The code
contradicts this: handle_incoming never clears the field, so after an
accepted response it still holds the poll's transmit timestamp and a
replay of the same response would be accepted again. This theorem
evaluates the code at the failing input: a fresh peer polls at tick 100,
the matching server response is accepted (the result is ok), yet
next_expected_origin is still some 100. -/
theorem c2_next_expected_origin_not_cleared :
    (Peer.handle_incoming step_stub ((Peer.new () 1 2 0).generate_poll_message 100).1
        { NtpHeader.new with mode := .Server, origin_timestamp := 100 } 200).2.isOk = true
    ∧ (Peer.handle_incoming step_stub ((Peer.new () 1 2 0).generate_poll_message 100).1
        { NtpHeader.new with mode := .Server, origin_timestamp := 100 } 200).1.next_expected_origin = some 100 := by
  constructor <;> rfl

/-- Claim C5 counterexample: a rate kiss does not raise
remote_min_poll_interval by exactly one. For the concrete peer with
remote_min_poll_interval 2 and last_poll_interval 5, the accepted rate kiss
raises it to 5, not to 3. -/
theorem c5_kiss_rate_not_by_one :
    ¬ ((Peer.handle_incoming step_stub c5_peer c5_packet 0).1.remote_min_poll_interval
        = c5_peer.remote_min_poll_interval + 1) := by decide

/-- Claim C5 (amended): for every peer state and every incoming server-mode
packet with matching origin timestamp that is a kiss-of-death with rate
code, handle_incoming sets remote_min_poll_interval to
max(i8_wrap(remote_min_poll_interval + 1), last_poll_interval) - the
source's unchecked i8 addition wraps at 127 - and rejects the sample with
Err(Kiss), leaving reach and the filter statistics unchanged. Whenever
remote_min_poll_interval < 127, so the i8 addition does not overflow, the
new value is a strict increase of at least one, never a decrease. -/
theorem c5_kiss_rate_raises_to_max {LM : Type} (step : StepFn LM) (p : Peer LM)
    (message : NtpHeader) (recv_time : NtpTimestamp)
    (hmode : message.mode = .Server)
    (horigin : some message.origin_timestamp = p.next_expected_origin)
    (hkiss : message.is_kiss_rate = true) :
    Peer.handle_incoming step p message recv_time
      = ({ p with remote_min_poll_interval := max (i8_wrap (p.remote_min_poll_interval + 1)) p.last_poll_interval },
         .error .Kiss)
    ∧ (p.remote_min_poll_interval < 127 →
        p.remote_min_poll_interval < max (i8_wrap (p.remote_min_poll_interval + 1)) p.last_poll_interval)
    ∧ ({ p with remote_min_poll_interval := max (i8_wrap (p.remote_min_poll_interval + 1)) p.last_poll_interval } : Peer LM).reach = p.reach
    ∧ ({ p with remote_min_poll_interval := max (i8_wrap (p.remote_min_poll_interval + 1)) p.last_poll_interval } : Peer LM).statistics = p.statistics := by
  refine ⟨?_, ?_, rfl, rfl⟩
  · simp [Peer.handle_incoming, hmode, ← horigin, hkiss]
  · intro hlt
    have hw : p.remote_min_poll_interval < i8_wrap (p.remote_min_poll_interval + 1) := by
      unfold i8_wrap
      omega
    exact lt_of_lt_of_le hw (le_max_left _ _)

/-- Witness for claim C5's amended theorem at the concrete rate-kiss
exchange (remote_min_poll_interval 2, last_poll_interval 5, no overflow). -/
theorem c5_kiss_rate_raises_to_max_witness :
    c5_peer.remote_min_poll_interval < max (i8_wrap (c5_peer.remote_min_poll_interval + 1)) c5_peer.last_poll_interval
    ∧ Peer.handle_incoming step_stub c5_peer c5_packet 0
      = ({ c5_peer with remote_min_poll_interval := max (i8_wrap (c5_peer.remote_min_poll_interval + 1)) c5_peer.last_poll_interval },
         .error .Kiss) :=
  ⟨(c5_kiss_rate_raises_to_max step_stub c5_peer c5_packet 0 rfl rfl rfl).2.1 (by decide),
   (c5_kiss_rate_raises_to_max step_stub c5_peer c5_packet 0 rfl rfl rfl).1⟩

/-- Claim C10: when next_expected_origin is None - as for a freshly created
peer - handle_incoming rejects every server-mode packet with
Err(InvalidPacketTime), whatever its origin timestamp, and leaves the peer
unchanged; a fresh peer indeed starts with next_expected_origin = None. -/
theorem c10_no_outstanding_poll_rejects {LM : Type} (step : StepFn LM) (p : Peer LM)
    (message : NtpHeader) (recv_time t0 : NtpTimestamp) (a b : Nat)
    (hnone : p.next_expected_origin = none)
    (hmode : message.mode = .Server) :
    Peer.handle_incoming step p message recv_time = (p, .error .InvalidPacketTime)
    ∧ (Peer.new () a b t0 : Peer Unit).next_expected_origin = none := by
  constructor
  · simp [Peer.handle_incoming, hmode, hnone]
  · rfl

/-- Witness for claim C10 at a fresh peer and a concrete server packet. -/
theorem c10_no_outstanding_poll_rejects_witness :
    Peer.handle_incoming step_stub (Peer.new () 3 4 0)
        { NtpHeader.new with mode := .Server, origin_timestamp := 77 } 5
      = (Peer.new () 3 4 0, .error .InvalidPacketTime) :=
  (c10_no_outstanding_poll_rejects step_stub (Peer.new () 3 4 0)
    { NtpHeader.new with mode := .Server, origin_timestamp := 77 } 5 0 0 0 rfl rfl).1

/-- Converting zero seconds gives the zero duration. -/
theorem from_seconds_zero : NtpDuration.from_seconds 0 = 0 := by
  have h : (0 : ℚ) * (2 ^ 32 : ℚ) = 0 := zero_mul _
  unfold NtpDuration.from_seconds rat_trunc
  rw [h, if_pos (le_refl (0 : ℚ))]
  decide

/-- Root distance of the on-threshold concrete peer at local time 0. -/
theorem c4_peer_eq_distance :
    c4_peer_eq.root_distance 0 = MAX_DISTANCE + multiply_by_phi 0 := by
  show Int.tdiv (max NtpDuration.MIN_DISPERSION (0 + 0)) 2 + 4284229878 + 0
      + NtpDuration.from_seconds 0 + multiply_by_phi (0 - 0)
    = MAX_DISTANCE + multiply_by_phi 0
  rw [from_seconds_zero]
  decide

/-- Root distance of the beyond-threshold concrete peer at local time 0. -/
theorem c4_peer_gt_distance :
    c4_peer_gt.root_distance 0 > MAX_DISTANCE + multiply_by_phi 0 := by
  have h : c4_peer_gt.root_distance 0
      = Int.tdiv (max NtpDuration.MIN_DISPERSION (0 + 0)) 2 + 4284229879 + 0
        + NtpDuration.from_seconds 0 + multiply_by_phi (0 - 0) := rfl
  rw [h, from_seconds_zero]
  decide

/-- Claim C4: for every peer state passing the stratum, loop and
reachability checks, accept_synchronization returns Ok when the root
distance exactly equals MAX_DISTANCE plus phi times the system poll, and
returns Err(Distance) whenever the root distance is strictly greater. -/
theorem c4_accept_distance_boundary {LM : Type} (p : Peer LM)
    (local_clock_time : NtpTimestamp) (system_poll : NtpDuration)
    (hleap : p.last_packet.leap.is_synchronized = true)
    (hstratum : p.last_packet.stratum < MAX_STRATUM)
    (hloop : ¬ (p.last_packet.stratum ≠ 1 ∧ p.last_packet.reference_id = p.our_id))
    (hreach : p.reach.is_reachable = true) :
    (p.root_distance local_clock_time = MAX_DISTANCE + multiply_by_phi system_poll →
      p.accept_synchronization local_clock_time system_poll = .ok ())
    ∧ (p.root_distance local_clock_time > MAX_DISTANCE + multiply_by_phi system_poll →
      p.accept_synchronization local_clock_time system_poll = .error .Distance) := by
  have h1 : ¬ (p.last_packet.leap.is_synchronized = false ∨ MAX_STRATUM ≤ p.last_packet.stratum) := by
    push_neg
    exact ⟨by simp [hleap], by omega⟩
  have h4 : ¬ (p.reach.is_reachable = false) := by simp [hreach]
  constructor
  · intro heq
    unfold Peer.accept_synchronization
    rw [if_neg h1, if_neg (by rw [heq]; exact lt_irrefl _), if_neg hloop, if_neg h4]
  · intro hgt
    unfold Peer.accept_synchronization
    rw [if_neg h1, if_pos hgt]

/-- Witness for claim C4 at the two concrete peers: one exactly on the
threshold is accepted, one beyond it gets the distance error. -/
theorem c4_accept_distance_boundary_witness :
    c4_peer_eq.root_distance 0 = MAX_DISTANCE + multiply_by_phi 0
    ∧ c4_peer_eq.accept_synchronization 0 0 = .ok ()
    ∧ c4_peer_gt.root_distance 0 > MAX_DISTANCE + multiply_by_phi 0
    ∧ c4_peer_gt.accept_synchronization 0 0 = .error .Distance :=
  ⟨c4_peer_eq_distance,
   (c4_accept_distance_boundary c4_peer_eq 0 0 (by decide) (by decide) (by decide) (by decide)).1
     c4_peer_eq_distance,
   c4_peer_gt_distance,
   (c4_accept_distance_boundary c4_peer_gt 0 0 (by decide) (by decide) (by decide) (by decide)).2
     c4_peer_gt_distance⟩

end NtpProto

namespace NtpProto.Kalman

/-- Removing a freshly inserted key restores an association list in which
the key was absent. -/
theorem assoc_remove_insert {PeerID V : Type} [DecidableEq PeerID]
    (l : List (PeerID × V)) (id : PeerID) (v : V)
    (h : assoc_find l id = none) :
    assoc_remove (assoc_insert l id v) id = l := by
  induction l with
  | nil => simp [assoc_insert, assoc_remove]
  | cons kv rest ih =>
    obtain ⟨k, w⟩ := kv
    by_cases hk : k = id
    · rw [assoc_find, if_pos hk] at h
      exact absurd h (by simp)
    · rw [assoc_find, if_neg hk] at h
      rw [assoc_insert, if_neg hk, assoc_remove, if_neg hk, ih h]

/-- Claim C8 counterexample: when a peer with the given id is already
present, peer_add followed by peer_remove does not restore the prior peer
table - the pre-existing entry is overwritten by the add and deleted by the
remove. -/
theorem c8_add_remove_not_roundtrip :
    (peer_remove (peer_add ext_bool test_controller_bool 0) 0).peers
      ≠ test_controller_bool.peers := by decide

/-- Claim C8 (amended): peer_add(id) followed by peer_remove(id) returns
the controller to its prior state provided no peer with that id was
already present. -/
theorem c8_add_remove_roundtrip {PS PeerID : Type} [DecidableEq PeerID]
    (E : Ext PS PeerID) (c : KalmanClockController PS PeerID) (id : PeerID)
    (h : assoc_find c.peers id = none) :
    peer_remove (peer_add E c id) id = c := by
  have hp : assoc_remove (assoc_insert c.peers id (E.ps_new, false)) id = c.peers :=
    assoc_remove_insert c.peers id (E.ps_new, false) h
  unfold peer_add peer_remove
  cases c
  simp only at hp ⊢
  rw [hp]

/-- Witness for claim C8's amended theorem: adding and removing the absent
id 7 restores the concrete controller exactly. -/
theorem c8_add_remove_roundtrip_witness :
    assoc_find test_controller.peers 7 = none
    ∧ peer_remove (peer_add ext_unit test_controller 7) 7 = test_controller :=
  ⟨rfl, c8_add_remove_roundtrip ext_unit test_controller 7 rfl⟩

/-- Claim C9: a measurement with localtime before ignore_before is dropped:
no peer filter is updated (the peer table is unchanged), no clock method is
invoked (the emitted call trace is empty), and the returned StateUpdate
carries used_peers = None and next_update = None. The only state field
that is recomputed on this path is timedata.poll_interval, which
update_desired_poll always refreshes. -/
theorem c9_old_measurement_dropped {PS PeerID : Type} [DecidableEq PeerID]
    (E : Ext PS PeerID) (c : KalmanClockController PS PeerID) (id : PeerID)
    (measurement : Measurement) (packet : NtpHeader) (nows : List NtpTimestamp)
    (h : measurement.localtime - c.ignore_before < 0) :
    peer_measurement E c id measurement packet nows
      = .ok (update_desired_poll E c,
             { used_peers := none
               timesnapshot := some (update_desired_poll E c).timedata
               next_update := none },
             [])
    ∧ (update_desired_poll E c).peers = c.peers := by
  constructor
  · have hup : update_peer E c id measurement packet = (c, false) := by
      unfold update_peer
      rw [if_pos h]
    simp [peer_measurement, hup]
  · rfl

/-- Witness for claim C9 at the concrete controller and a measurement one
tick older than ignore_before. -/
theorem c9_old_measurement_dropped_witness :
    c9_measurement.localtime - test_controller.ignore_before < 0
    ∧ peer_measurement ext_unit test_controller 0 c9_measurement NtpHeader.new []
      = .ok (update_desired_poll ext_unit test_controller,
             { used_peers := none
               timesnapshot := some (update_desired_poll ext_unit test_controller).timedata
               next_update := none },
             []) :=
  ⟨by decide,
   (c9_old_measurement_dropped ext_unit test_controller 0 c9_measurement NtpHeader.new [] (by decide)).1⟩

/-- In a list of leap indicators free of Unknown, the votes for the three
remaining values account for the whole list. -/
theorem leap_votes_total (l : List NtpLeapIndicator)
    (h : NtpLeapIndicator.Unknown ∉ l) :
    leap_votes .NoWarning l + leap_votes .Leap59 l + leap_votes .Leap61 l = l.length := by
  induction l with
  | nil => rfl
  | cons x xs ih =>
    have hx : x ≠ NtpLeapIndicator.Unknown := by
      intro hh
      exact h (hh ▸ List.mem_cons_self x xs)
    have h2 : NtpLeapIndicator.Unknown ∉ xs := fun hm => h (List.mem_cons_of_mem x hm)
    have ih2 := ih h2
    cases x with
    | Unknown => exact absurd rfl hx
    | NoWarning => simp [leap_votes]; omega
    | Leap59 => simp [leap_votes]; omega
    | Leap61 => simp [leap_votes]; omega

/-- A value absent from the list receives no votes. -/
theorem leap_votes_eq_zero (v : NtpLeapIndicator) (l : List NtpLeapIndicator)
    (h : v ∉ l) : leap_votes v l = 0 := by
  induction l with
  | nil => rfl
  | cons x xs ih =>
    have hx : x ≠ v := fun hh => h (hh ▸ List.mem_cons_self x xs)
    have h2 : v ∉ xs := fun hm => h (List.mem_cons_of_mem x hm)
    simp [leap_votes, hx, ih h2]

/-- Claim C6: for every selection of peer snapshots whose leap indicators
are all different from Unknown, vote_leap does not panic and returns
Some(v) exactly when the votes for v are a strict majority of the
selection, returning None exactly when no value has a strict majority. -/
theorem c6_vote_leap_majority {Index : Type} (selection : List (PeerSnapshot Index))
    (hne : selection ≠ [])
    (hu : NtpLeapIndicator.Unknown ∉ selection.map PeerSnapshot.leap_indicator) :
    (∀ v, v ≠ NtpLeapIndicator.Unknown →
      (vote_leap selection = some (some v)
        ↔ leap_votes v (selection.map PeerSnapshot.leap_indicator) * 2 > selection.length))
    ∧ (vote_leap selection = some none
        ↔ ∀ v, leap_votes v (selection.map PeerSnapshot.leap_indicator) * 2 ≤ selection.length) := by
  have hlen : (selection.map PeerSnapshot.leap_indicator).length = selection.length :=
    List.length_map selection PeerSnapshot.leap_indicator
  have hsum := leap_votes_total (selection.map PeerSnapshot.leap_indicator) hu
  have hzero := leap_votes_eq_zero NtpLeapIndicator.Unknown
    (selection.map PeerSnapshot.leap_indicator) hu
  unfold vote_leap
  rw [if_neg hu]
  split_ifs with h1 h2 h3
  · refine ⟨fun v hv => ?_, ?_⟩
    · cases v with
      | NoWarning => simp only [Option.some.injEq]; exact ⟨fun _ => h1, fun _ => trivial⟩
      | Leap59 =>
        constructor
        · intro heq; simp at heq
        · intro hb; omega
      | Leap61 =>
        constructor
        · intro heq; simp at heq
        · intro hb; omega
      | Unknown => exact absurd rfl hv
    · constructor
      · intro heq; simp at heq
      · intro hall; exact absurd (hall .NoWarning) (by omega)
  · refine ⟨fun v hv => ?_, ?_⟩
    · cases v with
      | NoWarning =>
        constructor
        · intro heq; simp at heq
        · intro hb; omega
      | Leap59 => simp only [Option.some.injEq]; exact ⟨fun _ => h2, fun _ => trivial⟩
      | Leap61 =>
        constructor
        · intro heq; simp at heq
        · intro hb; omega
      | Unknown => exact absurd rfl hv
    · constructor
      · intro heq; simp at heq
      · intro hall; exact absurd (hall .Leap59) (by omega)
  · refine ⟨fun v hv => ?_, ?_⟩
    · cases v with
      | NoWarning =>
        constructor
        · intro heq; simp at heq
        · intro hb; omega
      | Leap59 =>
        constructor
        · intro heq; simp at heq
        · intro hb; omega
      | Leap61 => simp only [Option.some.injEq]; exact ⟨fun _ => h3, fun _ => trivial⟩
      | Unknown => exact absurd rfl hv
    · constructor
      · intro heq; simp at heq
      · intro hall; exact absurd (hall .Leap61) (by omega)
  · refine ⟨fun v hv => ?_, ?_⟩
    · cases v with
      | NoWarning =>
        constructor
        · intro heq; simp at heq
        · intro hb; omega
      | Leap59 =>
        constructor
        · intro heq; simp at heq
        · intro hb; omega
      | Leap61 =>
        constructor
        · intro heq; simp at heq
        · intro hb; omega
      | Unknown => exact absurd rfl hv
    · exact ⟨fun _ => fun v => by cases v <;> omega, fun _ => rfl⟩

/-- Witness for claim C6 at a concrete three-peer selection with two
NoWarning votes and one Leap61 vote: NoWarning wins the vote. -/
theorem c6_vote_leap_majority_witness :
    leap_votes .NoWarning (c6_snapshots.map PeerSnapshot.leap_indicator) * 2 > c6_snapshots.length
    ∧ vote_leap c6_snapshots = some (some .NoWarning) :=
  ⟨by decide,
   ((c6_vote_leap_majority c6_snapshots (by decide) (by decide)).1 .NoWarning (by decide)).mpr (by decide)⟩

/-- Claim C7: combining a singleton selection keeps the snapshot's state
estimate unchanged, inflates the uncertainty by the matrix
diag(remote_dispersion squared, 0), reports the snapshot's delay plus its
remote delay, uses exactly that peer, and votes its leap indicator. -/
theorem c7_combine_singleton {Index : Type} (s : PeerSnapshot Index)
    (h : s.leap_indicator ≠ NtpLeapIndicator.Unknown) :
    combine [s] = some (some
      { estimate := s.state
        uncertainty := s.uncertainty
          + Matrix.new (sqr (NtpDuration.to_seconds s.peer_uncertainty)) 0 0 0
        peers := [s.index]
        delay := NtpDuration.from_seconds s.delay + s.peer_delay
        leap_indicator := some s.leap_indicator }) := by
  obtain ⟨idx, st, unc, dl, pu, pd, li, lu⟩ := s
  cases li with
  | Unknown => exact absurd rfl h
  | NoWarning => rfl
  | Leap59 => rfl
  | Leap61 => rfl

/-- Witness for claim C7 at the concrete snapshot. -/
theorem c7_combine_singleton_witness :
    combine [c7_snapshot] = some (some
      { estimate := c7_snapshot.state
        uncertainty := c7_snapshot.uncertainty
          + Matrix.new (sqr (NtpDuration.to_seconds c7_snapshot.peer_uncertainty)) 0 0 0
        peers := [c7_snapshot.index]
        delay := NtpDuration.from_seconds c7_snapshot.delay + c7_snapshot.peer_delay
        leap_indicator := some c7_snapshot.leap_indicator }) :=
  c7_combine_singleton c7_snapshot (by decide)

end NtpProto.Kalman

namespace NtpProto

/-- Truncating division by a fixed natural divisor is monotone over the
integers. -/
theorem tdiv_le_tdiv_of_le (n : Nat) {a b : Int} (h : a ≤ b) :
    Int.tdiv a (Int.ofNat n) ≤ Int.tdiv b (Int.ofNat n) := by
  cases a with
  | ofNat x =>
    cases b with
    | ofNat y =>
      simp only [Int.tdiv]
      exact Int.ofNat_le.mpr (Nat.div_le_div_right (Int.ofNat_le.mp h))
    | negSucc y =>
      simp only [Int.ofNat_eq_natCast, Int.negSucc_eq] at h
      omega
  | negSucc x =>
    cases b with
    | ofNat y =>
      simp only [Int.tdiv]
      have h1 : -(Int.ofNat (Nat.succ x / n)) ≤ 0 :=
        neg_nonpos.mpr (Int.ofNat_le.mpr (Nat.zero_le _))
      have h2 : (0 : Int) ≤ Int.ofNat (y / n) := Int.ofNat_le.mpr (Nat.zero_le _)
      exact h1.trans h2
    | negSucc y =>
      simp only [Int.tdiv]
      refine neg_le_neg (Int.ofNat_le.mpr (Nat.div_le_div_right ?_))
      have h3 := h
      simp only [Int.negSucc_eq] at h3
      omega

/-- The phi scaling of peer.rs is monotone (truncating division by a
positive constant preserves order, though not strictly). -/
theorem multiply_by_phi_mono {d1 d2 : NtpDuration} (h : d1 ≤ d2) :
    multiply_by_phi d1 ≤ multiply_by_phi d2 := by
  unfold multiply_by_phi
  exact tdiv_le_tdiv_of_le 1000000
    (mul_le_mul_of_nonneg_right h (by norm_num))

/-- Claim C3 counterexample: root_distance is not strictly increasing in
the time since the last update. For the concrete fresh peer (time 0), the
local clock times 0 and 1 differ by one tick yet give equal root
distances, because multiply_by_phi truncates 15/1000000 to zero. -/
theorem c3_time_strictness_fails :
    (0 : Int) < 1
    ∧ c3_peer.time = 0
    ∧ c3_peer.root_distance 0 = c3_peer.root_distance 1 :=
  ⟨by decide, rfl, rfl⟩

/-- Claim C3 (amended): root_distance is monotone, but not strictly, in the
time since the last update, in the packet's root_delay and in the smoothed
statistics.delay (strictness fails because multiply_by_phi and the halved
clamped delay use truncating integer division, and the delay sum is
clamped below by MIN_DISPERSION), and is strictly monotone in the packet's
root_dispersion, all other fields held equal. -/
theorem c3_root_distance_monotone {LM : Type} (p : Peer LM) (t : NtpTimestamp) (x y : Int) :
    (x ≤ y → p.root_distance (p.time + x) ≤ p.root_distance (p.time + y))
    ∧ (x ≤ y →
        Peer.root_distance { p with last_packet := { p.last_packet with root_delay := x } } t
          ≤ Peer.root_distance { p with last_packet := { p.last_packet with root_delay := y } } t)
    ∧ (x < y →
        Peer.root_distance { p with last_packet := { p.last_packet with root_dispersion := x } } t
          < Peer.root_distance { p with last_packet := { p.last_packet with root_dispersion := y } } t)
    ∧ (x ≤ y →
        Peer.root_distance { p with statistics := { p.statistics with delay := x } } t
          ≤ Peer.root_distance { p with statistics := { p.statistics with delay := y } } t) := by
  refine ⟨fun h => ?_, fun h => ?_, fun h => ?_, fun h => ?_⟩
  · have hxy : p.time + x - p.time ≤ p.time + y - p.time := by
      simp only [add_sub_cancel_left]
      exact h
    have hphi : multiply_by_phi (p.time + x - p.time) ≤ multiply_by_phi (p.time + y - p.time) :=
      multiply_by_phi_mono hxy
    show p.root_distance_without_time + multiply_by_phi (p.time + x - p.time)
      ≤ p.root_distance_without_time + multiply_by_phi (p.time + y - p.time)
    exact add_le_add_left hphi _
  · have hdiv : Int.tdiv (max NtpDuration.MIN_DISPERSION (x + p.statistics.delay)) (Int.ofNat 2)
        ≤ Int.tdiv (max NtpDuration.MIN_DISPERSION (y + p.statistics.delay)) (Int.ofNat 2) :=
      tdiv_le_tdiv_of_le 2
        (max_le_max (le_refl NtpDuration.MIN_DISPERSION) (add_le_add_right h p.statistics.delay))
    show Int.tdiv (max NtpDuration.MIN_DISPERSION (x + p.statistics.delay)) 2
        + p.last_packet.root_dispersion + p.statistics.dispersion
        + NtpDuration.from_seconds p.statistics.jitter + multiply_by_phi (t - p.time)
      ≤ Int.tdiv (max NtpDuration.MIN_DISPERSION (y + p.statistics.delay)) 2
        + p.last_packet.root_dispersion + p.statistics.dispersion
        + NtpDuration.from_seconds p.statistics.jitter + multiply_by_phi (t - p.time)
    exact add_le_add_right (add_le_add_right (add_le_add_right (add_le_add_right hdiv _) _) _) _
  · show Int.tdiv (max NtpDuration.MIN_DISPERSION (p.last_packet.root_delay + p.statistics.delay)) 2
        + x + p.statistics.dispersion
        + NtpDuration.from_seconds p.statistics.jitter + multiply_by_phi (t - p.time)
      < Int.tdiv (max NtpDuration.MIN_DISPERSION (p.last_packet.root_delay + p.statistics.delay)) 2
        + y + p.statistics.dispersion
        + NtpDuration.from_seconds p.statistics.jitter + multiply_by_phi (t - p.time)
    exact add_lt_add_right (add_lt_add_right (add_lt_add_right (add_lt_add_left h _) _) _) _
  · have hdiv : Int.tdiv (max NtpDuration.MIN_DISPERSION (p.last_packet.root_delay + x)) (Int.ofNat 2)
        ≤ Int.tdiv (max NtpDuration.MIN_DISPERSION (p.last_packet.root_delay + y)) (Int.ofNat 2) :=
      tdiv_le_tdiv_of_le 2
        (max_le_max (le_refl NtpDuration.MIN_DISPERSION) (add_le_add_left h p.last_packet.root_delay))
    show Int.tdiv (max NtpDuration.MIN_DISPERSION (p.last_packet.root_delay + x)) 2
        + p.last_packet.root_dispersion + p.statistics.dispersion
        + NtpDuration.from_seconds p.statistics.jitter + multiply_by_phi (t - p.time)
      ≤ Int.tdiv (max NtpDuration.MIN_DISPERSION (p.last_packet.root_delay + y)) 2
        + p.last_packet.root_dispersion + p.statistics.dispersion
        + NtpDuration.from_seconds p.statistics.jitter + multiply_by_phi (t - p.time)
    exact add_le_add_right (add_le_add_right (add_le_add_right (add_le_add_right hdiv _) _) _) _

/-- Witness for claim C3's amended theorem at the concrete fresh peer with
the varied quantity going from 0 to 5. -/
theorem c3_root_distance_monotone_witness :
    c3_peer.root_distance (c3_peer.time + 0) ≤ c3_peer.root_distance (c3_peer.time + 5)
    ∧ Peer.root_distance { c3_peer with last_packet := { c3_peer.last_packet with root_delay := 0 } } 7
        ≤ Peer.root_distance { c3_peer with last_packet := { c3_peer.last_packet with root_delay := 5 } } 7
    ∧ Peer.root_distance { c3_peer with last_packet := { c3_peer.last_packet with root_dispersion := 0 } } 7
        < Peer.root_distance { c3_peer with last_packet := { c3_peer.last_packet with root_dispersion := 5 } } 7
    ∧ Peer.root_distance { c3_peer with statistics := { c3_peer.statistics with delay := 0 } } 7
        ≤ Peer.root_distance { c3_peer with statistics := { c3_peer.statistics with delay := 5 } } 7 :=
  ⟨(c3_root_distance_monotone c3_peer 7 0 5).1 (by decide),
   (c3_root_distance_monotone c3_peer 7 0 5).2.1 (by decide),
   (c3_root_distance_monotone c3_peer 7 0 5).2.2.1 (by decide),
   (c3_root_distance_monotone c3_peer 7 0 5).2.2.2 (by decide)⟩

end NtpProto
